import Mathlib

/-!
Verification of the accounts/RBAC core of the litestar-nuxt-fullstack API.

The Python source under `app_api/app` is shallowly embedded: ORM entities
become Lean structures, the permission helpers and guards become pure
functions, services that hit the database become functions over an explicit
registry (a list of rows) returning `Except` for the `raise` paths.
UUID identifiers are modelled as `Nat` (opaque identities; the source only
ever compares them, via `str(...)` normalisation which is injective).
-/

/-- `app.models.accounts.Permission` (scalar columns). -/
structure Permission where
  id : Nat
  name : String
  resource : String
  action : String
  is_active : Bool
  deriving Repr, DecidableEq

/-- `app.models.accounts.Role` with its `permissions` relationship loaded
(`lazy="selectin"`), as the guard code receives it. -/
structure Role where
  id : Nat
  name : String
  description : Option String
  is_active : Bool
  permissions : List Permission
  deriving Repr, DecidableEq

/-- `app.models.accounts.User` with its `roles` relationship loaded
(`lazy="selectin"`), as the guard and auth code receive it. -/
structure User where
  id : Nat
  username : String
  email : Option String
  fullname : String
  password : String
  is_active : Bool
  last_login : Option Nat
  roles : List Role
  deriving Repr, DecidableEq

/-- `permissions.get_user_permissions`: for each active role, each active
permission contributes its `(resource, action)` pair.  The source builds a
Python `set`; we keep the list of contributed pairs and use list membership
for the set-membership queries, which is the only operation performed on it. -/
def get_user_permissions (user : User) : List (String × String) :=
  (user.roles.filter (fun role => role.is_active)).flatMap
    (fun role =>
      (role.permissions.filter (fun p => p.is_active)).map
        (fun p => (p.resource, p.action)))

/-- `permissions.user_has_permission`: skips inactive roles, returns `true`
on the first active permission matching `(resource, action)`. -/
def user_has_permission (user : User) (resource action : String) : Bool :=
  user.roles.any (fun role =>
    role.is_active && role.permissions.any (fun p =>
      p.is_active && p.resource == resource && p.action == action))

/-- `guards._is_superuser`: membership of the configured superuser role name
in the set of the user's active role names. -/
def is_superuser (superuser_role_name : String) (user : User) : Bool :=
  (user.roles.filter (fun role => role.is_active)).any
    (fun role => role.name == superuser_role_name)

/-- Outcome of a Litestar guard call: normal return, or an exception carrying
the HTTP status the framework maps it to and the exception message. -/
inductive GuardResult where
  | allow : GuardResult
  | deny (status : Nat) (message : String) : GuardResult
  deriving Repr, DecidableEq

/-- `litestar.exceptions.PermissionDeniedException` maps to HTTP 403. -/
def permissionDeniedStatus : Nat := 403

/-- `guards._get_authenticated_user`: `connection.user` may be absent; the
source raises `PermissionDeniedException("Authentication required")` then. -/
def get_authenticated_user (connUser : Option User) : Except GuardResult User :=
  match connUser with
  | none => .error (.deny permissionDeniedStatus "Authentication required")
  | some user => .ok user

/-- `guards.has_permission(resource, action)` applied to a connection whose
authenticated user is `connUser` (the source message wraps the capability in
single quotes; the quote characters are elided here). -/
def has_permission (superuser_role_name resource action : String)
    (connUser : Option User) : GuardResult :=
  match get_authenticated_user connUser with
  | .error e => e
  | .ok user =>
    if is_superuser superuser_role_name user then .allow
    else if (get_user_permissions user).contains (resource, action) then .allow
    else .deny permissionDeniedStatus
      ("Permission denied: requires " ++ resource ++ ":" ++ action)

/-- `guards.has_any_permission(*permissions)` applied to a connection. -/
def has_any_permission (superuser_role_name : String)
    (permissions : List (String × String)) (connUser : Option User) : GuardResult :=
  match get_authenticated_user connUser with
  | .error e => e
  | .ok user =>
    if is_superuser superuser_role_name user then .allow
    else
      let user_permissions := get_user_permissions user
      if permissions.any (fun ra => user_permissions.contains ra) then .allow
      else .deny permissionDeniedStatus
        ("Permission denied: requires one of [" ++
          String.intercalate ", " (permissions.map (fun ra => ra.1 ++ ":" ++ ra.2)) ++ "]")

/-- `guards.has_all_permissions(*permissions)` applied to a connection. -/
def has_all_permissions (superuser_role_name : String)
    (permissions : List (String × String)) (connUser : Option User) : GuardResult :=
  match get_authenticated_user connUser with
  | .error e => e
  | .ok user =>
    if is_superuser superuser_role_name user then .allow
    else
      let user_permissions := get_user_permissions user
      let missing := permissions.filter (fun ra => !user_permissions.contains ra)
      if missing.isEmpty then .allow
      else .deny permissionDeniedStatus
        ("Permission denied: missing [" ++
          String.intercalate ", " (missing.map (fun ra => ra.1 ++ ":" ++ ra.2)) ++ "]")

/-- `guards.has_role(*role_names)` applied to a connection. -/
def has_role (superuser_role_name : String) (role_names : List String)
    (connUser : Option User) : GuardResult :=
  match get_authenticated_user connUser with
  | .error e => e
  | .ok user =>
    if is_superuser superuser_role_name user then .allow
    else
      let user_role_names := (user.roles.filter (fun role => role.is_active)).map
        (fun role => role.name)
      if role_names.any (fun n => user_role_names.contains n) then .allow
      else .deny permissionDeniedStatus
        ("Permission denied: requires one of roles [" ++
          String.intercalate ", " role_names ++ "]")

/-- Spec-side predicate: the user holds an active role carrying an active
permission whose resource/action match. -/
def HoldsActivePermission (user : User) (resource action : String) : Prop :=
  ∃ role ∈ user.roles, role.is_active = true ∧
    ∃ p ∈ role.permissions, p.is_active = true ∧ p.resource = resource ∧ p.action = action

instance (user : User) (resource action : String) :
    Decidable (HoldsActivePermission user resource action) := by
  unfold HoldsActivePermission
  infer_instance

/-- Spec-side predicate: the user holds an active role named as the
configured superuser role. -/
def HoldsActiveSuperuserRole (superuser_role_name : String) (user : User) : Prop :=
  ∃ role ∈ user.roles, role.is_active = true ∧ role.name = superuser_role_name

instance (superuser_role_name : String) (user : User) :
    Decidable (HoldsActiveSuperuserRole superuser_role_name user) := by
  unfold HoldsActiveSuperuserRole
  infer_instance

/-!
### Role/Permission assignment protocol (`roles/services.py`, `users/services.py`)

Database-touching services become pure functions over an explicit registry
(the list of rows); a `raise` becomes `Except.error`.  The dependency wiring
checks (`"Permission service not configured"`, `"Role service not configured"`)
are modelled as satisfied, matching the `provide_*_service` providers which
always wire them.
-/

/-- One element of a raw permission payload as `RoleService._normalize_permissions`
sees it: either a `dict` (whose `get("id")` may yield nothing, covering both a
missing key and an explicit null) or an arbitrary object (whose
`getattr(_, "id", None)` may yield nothing). -/
inductive PermRef where
  | dict (id : Option Nat)
  | obj (id : Option Nat)
  deriving Repr, DecidableEq

/-- `RoleService._normalize_permissions`: extract the identifier from each
element whichever shape it has, skip elements without one, keep order.  The
source emits `{"id": pid}` records; downstream code reads only the `id`, so
the output is modelled as the list of identifiers. -/
def normalize_permissions (raw_permissions : List PermRef) : List Nat :=
  raw_permissions.filterMap (fun permission =>
    match permission with
    | .dict i => i
    | .obj i => i)

/-- `PermissionService.list_by_ids`: batch lookup returning every registry row
whose id is among those asked for. -/
def list_by_ids (registry : List Permission) (ids : List Nat) : List Permission :=
  registry.filter (fun p => ids.contains p.id)

/-- `RoleService._validate_and_get_permissions` on a normalized payload: empty
payload resolves to the empty list; otherwise batch-resolve, and if any id is
unresolved raise `ValueError` naming every missing id (the source compares
`str(...)` images, injective on identifiers). -/
def validate_and_get_permissions (registry : List Permission)
    (permission_ids : List Nat) : Except String (List Permission) :=
  if permission_ids.length = 0 then .ok []
  else
    let validated := list_by_ids registry permission_ids
    let resolved_ids := validated.map (fun p => p.id)
    let missing_ids := permission_ids.filter (fun i => !resolved_ids.contains i)
    if missing_ids.isEmpty then .ok validated
    else .error ("Unknown permission identifiers: " ++
      String.intercalate ", " (missing_ids.map toString))

/-- `RoleService.assign_permissions`: replace the role's permission collection
with the validated resolution of the payload. -/
def assign_permissions (registry : List Permission) (role : Role)
    (permission_ids : List Nat) : Except String Role :=
  match validate_and_get_permissions registry permission_ids with
  | .error e => .error e
  | .ok ps => .ok { role with permissions := ps }

/-- A role update payload (`data` dict of `update_role_with_permissions`):
`none` in a field models the key being absent from the patch.  For
`permissions`, the source pops with default `None`, so a present key with a
null value is indistinguishable from an absent key. -/
structure RolePatch where
  name : Option String
  description : Option (Option String)
  is_active : Option Bool
  permissions : Option (List PermRef)
  deriving Repr, DecidableEq

/-- Scalar-field application of a role patch, as the repository `update`
applies the remaining `data` keys to the matched row. -/
def apply_role_patch (role : Role) (patch : RolePatch) : Role :=
  { role with
    name := patch.name.getD role.name
    description := patch.description.getD role.description
    is_active := patch.is_active.getD role.is_active }

/-- Persisting a mutated role row back into the registry. -/
def persist_role (roles : List Role) (role : Role) : List Role :=
  roles.map (fun r => if r.id == role.id then role else r)

/-- Repository `update(item_id, data)` for roles: `NotFound` when no row has
the id, else apply the scalar fields and persist. -/
def update_role (roles : List Role) (roleId : Nat) (patch : RolePatch) :
    Except String (Role × List Role) :=
  match roles.find? (fun r => r.id == roleId) with
  | none => .error "NotFound"
  | some role =>
    let updated := apply_role_patch role patch
    .ok (updated, persist_role roles updated)

/-- `RoleService.update_role_with_permissions`: pop the `permissions` key,
update the scalar attributes first, then only if the key was present
normalize and run the assignment against the updated role. -/
def update_role_with_permissions (permReg : List Permission) (roles : List Role)
    (roleId : Nat) (patch : RolePatch) : Except String (Role × List Role) :=
  match update_role roles roleId patch with
  | .error e => .error e
  | .ok (updated_role, roles1) =>
    match patch.permissions with
    | none => .ok (updated_role, roles1)
    | some raw =>
      let normalized := normalize_permissions raw
      match assign_permissions permReg updated_role normalized with
      | .error e => .error e
      | .ok role2 => .ok (role2, persist_role roles1 role2)

/-- `UserService._validate_and_get_roles` on a payload of role identifiers
(`role.to_dict()["id"]` for each payload element): empty payload resolves to
the empty list; otherwise `list(CollectionFilter("id", role_ids))` — every
registry row whose id is among those asked for.  The source performs no
missing-id check and never raises for unresolved identifiers. -/
def validate_and_get_roles (roleReg : List Role) (role_ids : List Nat) :
    Except String (List Role) :=
  if role_ids.isEmpty then .ok []
  else .ok (roleReg.filter (fun r => role_ids.contains r.id))

/-- A user update payload (`data.as_builtins()` of `update_user_with_roles`);
`none` models the key being absent.  The `roles` payload is the list of role
identifiers carried by the embedded role objects. -/
structure UserPatch where
  username : Option String
  email : Option (Option String)
  fullname : Option String
  password : Option String
  is_active : Option Bool
  roles : Option (List Nat)
  deriving Repr, DecidableEq

/-- Scalar-field application of a user patch; a supplied password is hashed
before the persistence call (`password_hasher.hash`). -/
def apply_user_patch (hash : String → String) (user : User) (patch : UserPatch) : User :=
  { user with
    username := patch.username.getD user.username
    email := patch.email.getD user.email
    fullname := patch.fullname.getD user.fullname
    password := (patch.password.map hash).getD user.password
    is_active := patch.is_active.getD user.is_active }

/-- Persisting a mutated user row back into the directory. -/
def persist_user (users : List User) (user : User) : List User :=
  users.map (fun v => if v.id == user.id then user else v)

/-- `UserService.update_user_with_roles`: pop the `roles` key, hash a supplied
password, update the scalar attributes, then only if the key was present
replace the user's roles with the validated resolution. -/
def update_user_with_roles (hash : String → String) (roleReg : List Role)
    (users : List User) (userId : Nat) (patch : UserPatch) :
    Except String (User × List User) :=
  match users.find? (fun u => u.id == userId) with
  | none => .error "NotFound"
  | some user =>
    let updated := apply_user_patch hash user patch
    match patch.roles with
    | none => .ok (updated, persist_user users updated)
    | some role_ids =>
      match validate_and_get_roles roleReg role_ids with
      | .error e => .error e
      | .ok rs =>
        let final := { updated with roles := rs }
        .ok (final, persist_user users final)

/-!
### Credential service and login endpoint (`auth/services.py`, `auth/controllers.py`)

`password_hasher.verify` is an external vetted primitive; it is a parameter
`verify : String → String → Bool` (plaintext, stored hash).  Wall-clock time
is a parameter `now`.
-/

/-- `UserRepository.get_one_or_none(username=...)`: the unique row with that
exact username, if any (SQL equality on the unique indexed column:
case-sensitive exact match). -/
def get_one_or_none_by_username (users : List User) (username : String) : Option User :=
  users.find? (fun u => u.username == username)

/-- `AuthService.authenticate_user`: absent user or failed verification give
`None`; on success the last-login timestamp is set to the current time, the
row is persisted, and the (relationship-loaded) user is returned together
with the updated directory. -/
def authenticate_user (verify : String → String → Bool) (users : List User)
    (username password : String) (now : Nat) : Option (User × List User) :=
  match get_one_or_none_by_username users username with
  | none => none
  | some user =>
    if verify password user.password then
      let updated := { user with last_login := some now }
      some (updated, persist_user users updated)
    else none

/-- Observable outcome of `POST /auth/login`: either the success response
built by `oauth2_auth.login` (status 200, token subject = user id, display
claims name and email-or-empty), or an `HTTPException` response. -/
inductive LoginResponse where
  | success (status : Nat) (subject : Nat) (name : String) (email : String)
  | failure (status : Nat) (detail : String)
  deriving Repr, DecidableEq

/-- `AuthController.login`: authenticate, raise 401 with a fixed generic
detail on failure, otherwise issue the token response. -/
def login (verify : String → String → Bool) (users : List User)
    (username password : String) (now : Nat) : LoginResponse × List User :=
  match authenticate_user verify users username password now with
  | none => (.failure 401 "Invalid username or password", users)
  | some (user, users2) =>
    (.success 200 user.id user.fullname (user.email.getD ""), users2)

/-!
### Relational view (`app/models/accounts.py`)

For the frame/effect claim about deactivating a permission, the database is
modelled at row level: entity tables plus the two association tables
(`accounts_users_roles`, `accounts_roles_permissions`), with relationship
loading defined as the joins the ORM performs.
-/

/-- A row of `accounts_roles` (scalar columns only). -/
structure RoleRow where
  id : Nat
  name : String
  description : Option String
  is_active : Bool
  deriving Repr, DecidableEq

/-- A row of `accounts_users` (scalar columns only). -/
structure UserRow where
  id : Nat
  username : String
  email : Option String
  fullname : String
  password : String
  is_active : Bool
  last_login : Option Nat
  deriving Repr, DecidableEq

/-- The account tables: entities plus the `UserRole` and `RolePermission`
association rows (pairs of foreign keys, primary-keyed on the pair). -/
structure DB where
  permissions : List Permission
  roles : List RoleRow
  users : List UserRow
  role_permissions : List (Nat × Nat)
  user_roles : List (Nat × Nat)
  deriving Repr, DecidableEq

/-- Loading a role's `permissions` relationship: the permission rows linked
through `accounts_roles_permissions`. -/
def load_role (db : DB) (r : RoleRow) : Role :=
  { id := r.id, name := r.name, description := r.description, is_active := r.is_active,
    permissions := db.permissions.filter (fun p => db.role_permissions.contains (r.id, p.id)) }

/-- Loading a user's `roles` relationship (and transitively each role's
permissions): the role rows linked through `accounts_users_roles`. -/
def load_user (db : DB) (u : UserRow) : User :=
  { id := u.id, username := u.username, email := u.email, fullname := u.fullname,
    password := u.password, is_active := u.is_active, last_login := u.last_login,
    roles := (db.roles.filter (fun r => db.user_roles.contains (u.id, r.id))).map (load_role db) }

/-- A user's effective permission set computed from the stored rows:
`get_user_permissions` applied to the freshly loaded user. -/
def db_user_permissions (db : DB) (uid : Nat) : List (String × String) :=
  match db.users.find? (fun u => u.id == uid) with
  | none => []
  | some u => get_user_permissions (load_user db u)

/-- `PermissionService.update(item_id=pid, {"is_active": False})`: flip the
flag on the matching permission row; nothing else changes. -/
def deactivate_permission (db : DB) (pid : Nat) : DB :=
  { db with permissions := db.permissions.map (fun p =>
      if p.id == pid then { p with is_active := false } else p) }

/-!
### Helper lemmas
-/

/-- The boolean superuser check agrees with the spec-side predicate. -/
theorem is_superuser_iff (superuser_role_name : String) (user : User) :
    is_superuser superuser_role_name user = true ↔
      HoldsActiveSuperuserRole superuser_role_name user := by
  simp [is_superuser, HoldsActiveSuperuserRole, List.any_eq_true, List.mem_filter]

/-- Membership of a pair in the computed effective permission list agrees with
the spec-side predicate. -/
theorem mem_get_user_permissions_iff (user : User) (resource action : String) :
    (resource, action) ∈ get_user_permissions user ↔
      HoldsActivePermission user resource action := by
  simp [get_user_permissions, HoldsActivePermission, List.mem_flatMap,
    List.mem_filter, List.mem_map, Prod.ext_iff]
  tauto

/-- The boolean programmatic check agrees with the spec-side predicate. -/
theorem user_has_permission_iff (user : User) (resource action : String) :
    user_has_permission user resource action = true ↔
      HoldsActivePermission user resource action := by
  simp [user_has_permission, HoldsActivePermission, List.any_eq_true]
  tauto

/-!
### C1 — authorization check vs. holding a granting role / the superuser role
-/

/-- Spec-side predicate as C1 words it: the user holds (among their roles,
active or not) a role named as the configured superuser role. -/
def HoldsSuperuserRole (superuser_role_name : String) (user : User) : Prop :=
  ∃ role ∈ user.roles, role.name = superuser_role_name

instance (superuser_role_name : String) (user : User) :
    Decidable (HoldsSuperuserRole superuser_role_name user) := by
  unfold HoldsSuperuserRole
  infer_instance

/-- A user whose only role is an active, permission-less role named as the
configured superuser role (`"admin"`). -/
def c1SuperUser : User :=
  { id := 1, username := "root", email := none, fullname := "Root", password := "h",
    is_active := true, last_login := none,
    roles := [{ id := 2, name := "admin", description := none, is_active := true,
                permissions := [] }] }

/-- A user whose only role is named as the configured superuser role but is
inactive, and carries no permission. -/
def c1InactiveSuper : User :=
  { id := 3, username := "oldroot", email := none, fullname := "Old Root", password := "h",
    is_active := true, last_login := none,
    roles := [{ id := 4, name := "admin", description := none, is_active := false,
                permissions := [] }] }

/-- C1: refuted as stated.  The programmatic form `user_has_permission` has no
superuser bypass: a holder of the active superuser role with no matching
permission is denied by it (while the guard form allows), so the two forms do
not implement the claimed common predicate; and the guard form requires the
superuser role to be active: a holder of an inactive superuser role is denied
although the claim's right-hand side holds. -/
theorem C1_counterexample :
    (¬ (user_has_permission c1SuperUser "users" "list" = true ↔
        (HoldsActivePermission c1SuperUser "users" "list" ∨
          HoldsSuperuserRole "admin" c1SuperUser)))
    ∧ has_permission "admin" "users" "list" (some c1SuperUser) = .allow
    ∧ (¬ (has_permission "admin" "users" "list" (some c1InactiveSuper) = .allow ↔
        (HoldsActivePermission c1InactiveSuper "users" "list" ∨
          HoldsSuperuserRole "admin" c1InactiveSuper))) := by
  refine ⟨fun h => ?_, by decide, fun h => ?_⟩
  · have : user_has_permission c1SuperUser "users" "list" = true :=
      h.mpr (Or.inr (by decide))
    exact absurd this (by decide)
  · have : has_permission "admin" "users" "list" (some c1InactiveSuper) = .allow :=
      h.mpr (Or.inr (by decide))
    exact absurd this (by decide)

/-- C1 (amended): the guard form `has_permission` allows exactly when the user
holds an active role carrying an active matching permission or holds an active
role named as the configured superuser role; the programmatic form
`user_has_permission` returns true exactly when the user holds an active role
carrying an active matching permission (it has no superuser bypass). -/
theorem C1_authorize_iff (superuser_role_name resource action : String) (user : User) :
    (has_permission superuser_role_name resource action (some user) = .allow ↔
      (HoldsActivePermission user resource action ∨
        HoldsActiveSuperuserRole superuser_role_name user))
    ∧ (user_has_permission user resource action = true ↔
      HoldsActivePermission user resource action) := by
  constructor
  · rw [← is_superuser_iff, ← mem_get_user_permissions_iff]
    unfold has_permission get_authenticated_user
    by_cases hs : is_superuser superuser_role_name user = true
    · simp [hs]
    · by_cases hm : (resource, action) ∈ get_user_permissions user
      · simp [hs, hm, List.contains, List.elem_iff]
      · simp [hs, hm]
  · exact user_has_permission_iff user resource action

/-!
### C2 / C3 — unresolved identifiers in assignment calls
-/

/-- A registry role (`id = 7`) for the assignment scenarios. -/
def c2Role7 : Role :=
  { id := 7, name := "viewer", description := none, is_active := true, permissions := [] }

/-- A user currently holding role 7. -/
def c2User : User :=
  { id := 1, username := "alice", email := none, fullname := "Alice", password := "h",
    is_active := true, last_login := none, roles := [c2Role7] }

/-- A user patch whose roles payload carries only the unknown identifier 999. -/
def c2Patch : UserPatch :=
  { username := none, email := none, fullname := none, password := none,
    is_active := none, roles := some [999] }

/-- C2: on the user side the code violates the claim.  With a roles payload
naming only the unresolvable identifier 999, `update_user_with_roles` does not
fail: it succeeds and replaces the user's association set (previously role 7)
with the resolved subset — the empty list.  (The role/permission side does
reject, see `C3_validators_disagree`.) -/
theorem C2_user_side_applies_unresolved :
    update_user_with_roles (fun s => s) [c2Role7] [c2User] 1 c2Patch =
      .ok ({ c2User with roles := [] }, [{ c2User with roles := [] }])
    ∧ c2User.roles = [c2Role7] := by
  constructor
  · rfl
  · rfl

/-- A registry permission (`id = 7`) for the contrast scenario. -/
def c3Perm7 : Permission :=
  { id := 7, name := "users-list", resource := "users", action := "list", is_active := true }

/-- C3: the two validators are not the same algorithm.  On the same shape of
payload (the single identifier 999) against registries holding only id 7, the
permission-side validator rejects naming the unresolved identifier while the
role-side validator silently succeeds with the resolved (empty) subset. -/
theorem C3_validators_disagree :
    validate_and_get_permissions [c3Perm7] [999] =
      .error "Unknown permission identifiers: 999"
    ∧ validate_and_get_roles [c2Role7] [999] = .ok [] := by
  constructor
  · rfl
  · rfl

/-!
### C4 — payload normalization
-/

/-- C4: refuted as stated — normalization does not deduplicate.  A payload
repeating the identifier 5 twice normalizes to a list in which 5 appears
twice. -/
theorem C4_counterexample :
    normalize_permissions [PermRef.dict (some 5), PermRef.dict (some 5)] = [5, 5]
    ∧ ¬ (normalize_permissions [PermRef.dict (some 5), PermRef.dict (some 5)]).Nodup := by
  constructor
  · rfl
  · decide

/-- Order-preserving extraction of the identifiers, written as the spec
describes the step (take each element's identifier whichever shape carries
it, drop elements without one, keep relative order) — without the claimed
deduplication. -/
def extract_ids_ordered : List PermRef → List Nat
  | [] => []
  | PermRef.dict (some i) :: rest => i :: extract_ids_ordered rest
  | PermRef.obj (some i) :: rest => i :: extract_ids_ordered rest
  | PermRef.dict none :: rest => extract_ids_ordered rest
  | PermRef.obj none :: rest => extract_ids_ordered rest

/-- C4 (amended): normalization returns the identifiers of exactly the
elements that carry one — extracted from dict key or object attribute alike,
id-less elements dropped silently, relative order preserved — but performs no
deduplication: duplicates in the payload survive in the output. -/
theorem C4_normalize_extracts_in_order (raw_permissions : List PermRef) :
    normalize_permissions raw_permissions = extract_ids_ordered raw_permissions := by
  induction raw_permissions with
  | nil => rfl
  | cons head tail ih =>
    cases head with
    | dict i => cases i <;> simp [normalize_permissions, extract_ids_ordered,
        List.filterMap_cons] <;> exact ih
    | obj i => cases i <;> simp [normalize_permissions, extract_ids_ordered,
        List.filterMap_cons] <;> exact ih

/-!
### C5 — unauthenticated requests
-/

/-- C5: refuted as stated.  A request with no authenticated identity is
rejected by the guard with `PermissionDeniedException` — HTTP 403 — not with
a distinct 401 error: the status is `permissionDeniedStatus = 403`. -/
theorem C5_counterexample :
    has_permission "admin" "users" "list" none =
      GuardResult.deny 403 "Authentication required"
    ∧ permissionDeniedStatus = 403 := by
  constructor
  · rfl
  · rfl

/-- Strings of different lengths differ. -/
theorem ne_of_length_ne {s t : String} (h : s.length ≠ t.length) : s ≠ t :=
  fun e => h (congrArg String.length e)

/-- C5 (amended): every guard rejects a request carrying no authenticated
identity with `PermissionDeniedException` (HTTP 403) and the fixed message
`Authentication required`; an authenticated but under-privileged request is
rejected with the same exception class and status, so the two outcomes are
distinguished only by the message — never by a 401-vs-403 status split.  No
guard ever produces the `Authentication required` message for an
authenticated user. -/
theorem C5_unauthenticated_denies_403 (superuser_role_name resource action : String)
    (permissions : List (String × String)) (role_names : List String) (user : User) :
    (has_permission superuser_role_name resource action none =
      .deny permissionDeniedStatus "Authentication required")
    ∧ (has_any_permission superuser_role_name permissions none =
      .deny permissionDeniedStatus "Authentication required")
    ∧ (has_all_permissions superuser_role_name permissions none =
      .deny permissionDeniedStatus "Authentication required")
    ∧ (has_role superuser_role_name role_names none =
      .deny permissionDeniedStatus "Authentication required")
    ∧ (has_permission superuser_role_name resource action (some user) ≠
      .deny permissionDeniedStatus "Authentication required")
    ∧ (has_any_permission superuser_role_name permissions (some user) ≠
      .deny permissionDeniedStatus "Authentication required")
    ∧ (has_all_permissions superuser_role_name permissions (some user) ≠
      .deny permissionDeniedStatus "Authentication required")
    ∧ (has_role superuser_role_name role_names (some user) ≠
      .deny permissionDeniedStatus "Authentication required") := by
  refine ⟨rfl, rfl, rfl, rfl, ?_, ?_, ?_, ?_⟩
  · unfold has_permission get_authenticated_user
    by_cases hs : is_superuser superuser_role_name user = true
    · simp [hs]
    · by_cases hm : (get_user_permissions user).contains (resource, action) = true
      · intro h
        simp only [if_neg hs] at h
        rw [if_pos hm] at h
        simp at h
      · simp only [hs, hm]
        simp only [Bool.false_eq_true, if_false]
        intro h
        have hmsg := (GuardResult.deny.injEq _ _ _ _).mp h |>.2
        have hlen := congrArg String.length hmsg
        simp only [String.length_append] at hlen
        have h1 : ("Permission denied: requires ").length = 28 := rfl
        have h2 : (":").length = 1 := rfl
        have h3 : ("Authentication required").length = 23 := rfl
        omega
  · unfold has_any_permission get_authenticated_user
    by_cases hs : is_superuser superuser_role_name user = true
    · simp [hs]
    · by_cases hm : permissions.any
        (fun ra => (get_user_permissions user).contains ra) = true
      · intro h
        simp only [if_neg hs] at h
        rw [if_pos hm] at h
        simp at h
      · simp only [hs, hm]
        simp only [Bool.false_eq_true, if_false]
        intro h
        have hmsg := (GuardResult.deny.injEq _ _ _ _).mp h |>.2
        have hlen := congrArg String.length hmsg
        simp only [String.length_append] at hlen
        have h1 : ("Permission denied: requires one of [").length = 36 := rfl
        have h2 : ("]").length = 1 := rfl
        have h3 : ("Authentication required").length = 23 := rfl
        omega
  · unfold has_all_permissions get_authenticated_user
    by_cases hs : is_superuser superuser_role_name user = true
    · simp [hs]
    · by_cases hm : (permissions.filter
        (fun ra => !(get_user_permissions user).contains ra)).isEmpty = true
      · intro h
        simp only [if_neg hs] at h
        rw [if_pos hm] at h
        simp at h
      · simp only [hs, hm]
        simp only [Bool.false_eq_true, if_false]
        intro h
        have hmsg := (GuardResult.deny.injEq _ _ _ _).mp h |>.2
        have hlen := congrArg String.length hmsg
        simp only [String.length_append] at hlen
        have h1 : ("Permission denied: missing [").length = 28 := rfl
        have h2 : ("]").length = 1 := rfl
        have h3 : ("Authentication required").length = 23 := rfl
        omega
  · unfold has_role get_authenticated_user
    by_cases hs : is_superuser superuser_role_name user = true
    · simp [hs]
    · by_cases hm : role_names.any
        (fun n => ((user.roles.filter (fun role => role.is_active)).map
          (fun role => role.name)).contains n) = true
      · intro h
        simp only [if_neg hs] at h
        rw [if_pos hm] at h
        simp at h
      · simp only [hs, hm]
        simp only [Bool.false_eq_true, if_false]
        intro h
        have hmsg := (GuardResult.deny.injEq _ _ _ _).mp h |>.2
        have hlen := congrArg String.length hmsg
        simp only [String.length_append] at hlen
        have h1 : ("Permission denied: requires one of roles [").length = 42 := rfl
        have h2 : ("]").length = 1 := rfl
        have h3 : ("Authentication required").length = 23 := rfl
        omega

/-!
### C6 / C7 — credential service and login endpoint
-/

/-- C6: `authenticate_user` returns `none` when no row matches the username
exactly, and when the match fails hash verification; any match has exactly
the requested username (case-sensitive `==`); on success the result is the
matched user with `last_login` set to the current time, that update persisted
into the directory, and the relationship-loaded `roles` untouched. -/
theorem C6_authenticate_user_spec (verify : String → String → Bool)
    (users : List User) (username password : String) (now : Nat) :
    (get_one_or_none_by_username users username = none →
      authenticate_user verify users username password now = none)
    ∧ (∀ u, get_one_or_none_by_username users username = some u →
        u.username = username)
    ∧ (∀ u, get_one_or_none_by_username users username = some u →
        verify password u.password = false →
        authenticate_user verify users username password now = none)
    ∧ (∀ u, get_one_or_none_by_username users username = some u →
        verify password u.password = true →
        authenticate_user verify users username password now =
          some ({ u with last_login := some now },
            persist_user users { u with last_login := some now })
          ∧ ({ u with last_login := some now } : User).roles = u.roles) := by
  refine ⟨fun h => ?_, fun u h => ?_, fun u h hv => ?_, fun u h hv => ⟨?_, rfl⟩⟩
  · unfold authenticate_user
    rw [h]
  · have := List.find?_some h
    simpa using this
  · unfold authenticate_user
    rw [h]
    simp [hv]
  · unfold authenticate_user
    rw [h]
    simp [hv]

/-- A stand-in for the external hash-verification primitive: the stored hash
of `p` is the string `hash:` followed by `p`. -/
def c6Verify : String → String → Bool :=
  fun plain stored => stored == "hash:" ++ plain

/-- A concrete directory entry whose stored hash verifies `pw`. -/
def c6Alice : User :=
  { id := 1, username := "alice", email := some "alice@example.org",
    fullname := "Alice", password := "hash:pw", is_active := true,
    last_login := none, roles := [] }

/-- Witness for C6 at a concrete directory: unknown username fails, wrong
password fails, and the correct pair succeeds setting the timestamp. -/
theorem C6_witness :
    authenticate_user c6Verify [c6Alice] "bob" "pw" 5 = none
    ∧ authenticate_user c6Verify [c6Alice] "alice" "bad" 5 = none
    ∧ authenticate_user c6Verify [c6Alice] "alice" "pw" 5 =
        some ({ c6Alice with last_login := some 5 },
          persist_user [c6Alice] { c6Alice with last_login := some 5 }) := by
  refine ⟨?_, ?_, ?_⟩
  · exact (C6_authenticate_user_spec c6Verify [c6Alice] "bob" "pw" 5).1 rfl
  · exact (C6_authenticate_user_spec c6Verify [c6Alice] "alice" "bad" 5).2.2.1
      c6Alice rfl rfl
  · exact ((C6_authenticate_user_spec c6Verify [c6Alice] "alice" "pw" 5).2.2.2
      c6Alice rfl rfl).1

/-- C7: whenever two login attempts both fail authentication — in particular
a known username with a wrong password and an unknown username — the endpoint
returns the identical observable response, namely 401 with the fixed generic
detail, independent of which factor failed. -/
theorem C7_login_nondistinguishing (verify : String → String → Bool)
    (users : List User) (u1 p1 u2 p2 : String) (now1 now2 : Nat)
    (h1 : authenticate_user verify users u1 p1 now1 = none)
    (h2 : authenticate_user verify users u2 p2 now2 = none) :
    (login verify users u1 p1 now1).1 = (login verify users u2 p2 now2).1
    ∧ (login verify users u1 p1 now1).1 =
        .failure 401 "Invalid username or password" := by
  unfold login
  rw [h1, h2]
  exact ⟨rfl, rfl⟩

/-- Witness for C7: against the concrete directory, the wrong-password
attempt and the unknown-username attempt produce the same response. -/
theorem C7_witness :
    (login c6Verify [c6Alice] "alice" "bad" 3).1 =
      (login c6Verify [c6Alice] "nobody" "pw" 4).1
    ∧ (login c6Verify [c6Alice] "alice" "bad" 3).1 =
      LoginResponse.failure 401 "Invalid username or password" :=
  C7_login_nondistinguishing c6Verify [c6Alice] "alice" "bad" "nobody" "pw" 3 4 rfl rfl

/-!
### C8 — role update: omitted vs. explicit-empty permission field
-/

/-- C8: when the target role exists, `update_role_with_permissions` applies
the scalar fields of the patch first (via `apply_role_patch`, which never
touches `permissions`); a patch whose permission field is absent leaves the
role's permission set exactly as it was, while a patch carrying an explicit
empty list clears the permission set to empty — the assignment step runs only
when the field was present. -/
theorem C8_update_role_with_permissions_spec (permReg : List Permission)
    (roles : List Role) (roleId : Nat) (patch : RolePatch) (role : Role)
    (hfind : roles.find? (fun r => r.id == roleId) = some role) :
    (patch.permissions = none →
      update_role_with_permissions permReg roles roleId patch =
        .ok (apply_role_patch role patch,
          persist_role roles (apply_role_patch role patch))
      ∧ (apply_role_patch role patch).permissions = role.permissions)
    ∧ (patch.permissions = some [] →
      update_role_with_permissions permReg roles roleId patch =
        .ok ({ apply_role_patch role patch with permissions := [] },
          persist_role (persist_role roles (apply_role_patch role patch))
            { apply_role_patch role patch with permissions := [] })) := by
  constructor
  · intro hnone
    unfold update_role_with_permissions update_role
    rw [hfind, hnone]
    exact ⟨rfl, rfl⟩
  · intro hempty
    unfold update_role_with_permissions update_role
    rw [hfind, hempty]
    rfl

/-- A registry permission and a role currently holding it, for the C8
witness. -/
def c8Perm : Permission :=
  { id := 11, name := "users-list", resource := "users", action := "list",
    is_active := true }

/-- The role under update in the C8 witness, currently holding `c8Perm`. -/
def c8Role : Role :=
  { id := 3, name := "viewer", description := none, is_active := true,
    permissions := [c8Perm] }

/-- A patch renaming the role and omitting the permission field. -/
def c8PatchOmit : RolePatch :=
  { name := some "reader", description := none, is_active := none,
    permissions := none }

/-- A patch renaming the role and explicitly clearing the permissions. -/
def c8PatchClear : RolePatch :=
  { name := some "reader", description := none, is_active := none,
    permissions := some [] }

/-- Witness for C8: with the field omitted the held permission survives the
scalar rename; with an explicit empty list the permission set is cleared. -/
theorem C8_witness :
    (update_role_with_permissions [c8Perm] [c8Role] 3 c8PatchOmit =
        .ok (apply_role_patch c8Role c8PatchOmit,
          persist_role [c8Role] (apply_role_patch c8Role c8PatchOmit))
      ∧ (apply_role_patch c8Role c8PatchOmit).permissions = c8Role.permissions)
    ∧ update_role_with_permissions [c8Perm] [c8Role] 3 c8PatchClear =
        .ok ({ apply_role_patch c8Role c8PatchClear with permissions := [] },
          persist_role (persist_role [c8Role] (apply_role_patch c8Role c8PatchClear))
            { apply_role_patch c8Role c8PatchClear with permissions := [] }) := by
  constructor
  · exact (C8_update_role_with_permissions_spec [c8Perm] [c8Role] 3 c8PatchOmit
      c8Role rfl).1 rfl
  · exact (C8_update_role_with_permissions_spec [c8Perm] [c8Role] 3 c8PatchClear
      c8Role rfl).2 rfl

/-!
### C9 — deactivating a permission
-/

/-- Membership in a user's effective permission set, characterized over the
stored rows: the user row is found, linked to an active role row, which is
linked to an active permission row carrying the pair. -/
theorem mem_db_user_permissions_iff (db : DB) (uid : Nat) (r a : String) :
    (r, a) ∈ db_user_permissions db uid ↔
    ∃ u, db.users.find? (fun v => v.id == uid) = some u ∧
    ∃ rr ∈ db.roles, (u.id, rr.id) ∈ db.user_roles ∧ rr.is_active = true ∧
    ∃ p ∈ db.permissions, (rr.id, p.id) ∈ db.role_permissions ∧
      p.is_active = true ∧ p.resource = r ∧ p.action = a := by
  unfold db_user_permissions
  cases hfind : db.users.find? (fun v => v.id == uid) with
  | none => simp
  | some u =>
    rw [mem_get_user_permissions_iff]
    unfold HoldsActivePermission load_user
    constructor
    · rintro ⟨role, hrole, hact, p, hp, hpa, hres, hactn⟩
      simp only [List.mem_map, List.mem_filter] at hrole
      obtain ⟨rr, ⟨hrr, hur⟩, rfl⟩ := hrole
      simp only [load_role, List.mem_filter] at hp
      refine ⟨u, rfl, rr, hrr, List.elem_iff.mp hur, hact, p, hp.1,
        List.elem_iff.mp hp.2, hpa, hres, hactn⟩
    · rintro ⟨u2, hu2, rr, hrr, hur, hact, p, hp, hrp, hpa, hres, hactn⟩
      cases hu2
      refine ⟨load_role db rr, ?_, hact, p, ?_, hpa, hres, hactn⟩
      · simp only [List.mem_map, List.mem_filter]
        exact ⟨rr, ⟨hrr, List.elem_iff.mpr hur⟩, rfl⟩
      · simp only [load_role, List.mem_filter]
        exact ⟨hp, List.elem_iff.mpr hrp⟩

/-- Two distinct active permission rows carrying the same `(users, list)`
pair, both linked to the one active role held by the one user. -/
def c9DB : DB :=
  { permissions :=
      [{ id := 1, name := "users-list-a", resource := "users", action := "list",
         is_active := true },
       { id := 2, name := "users-list-b", resource := "users", action := "list",
         is_active := true }],
    roles := [{ id := 7, name := "viewer", description := none, is_active := true }],
    users := [{ id := 10, username := "alice", email := none, fullname := "Alice",
                password := "h", is_active := true, last_login := none }],
    role_permissions := [(7, 1), (7, 2)],
    user_roles := [(10, 7)] }

/-- C9: refuted as stated.  Permission row 1 carries the pair
`(users, list)`; after deactivating it, the pair is still in user 10's
effective permission set (granted by the other active permission row with
the same pair), so the deactivation does not remove the pair from every
holder's effective set. -/
theorem C9_counterexample :
    (Permission.mk 1 "users-list-a" "users" "list" true) ∈ c9DB.permissions
    ∧ ("users", "list") ∈ db_user_permissions (deactivate_permission c9DB 1) 10 := by
  constructor
  · decide
  · decide

/-- C9 (amended): deactivating a permission row changes nothing but that
row's `is_active` flag — every role/user row, both association tables, and
every other permission row are untouched — and removes exactly that row's
contribution from effective permission sets: a pair remains effective for a
user precisely when some other permission row (a different id), still
active, carries it and is linked through an active held role. -/
theorem C9_deactivate_permission_spec (db : DB) (pid uid : Nat) (r a : String) :
    ((deactivate_permission db pid).roles = db.roles
      ∧ (deactivate_permission db pid).users = db.users
      ∧ (deactivate_permission db pid).role_permissions = db.role_permissions
      ∧ (deactivate_permission db pid).user_roles = db.user_roles)
    ∧ (∀ p ∈ db.permissions, p.id ≠ pid →
        p ∈ (deactivate_permission db pid).permissions)
    ∧ (∀ p ∈ db.permissions, p.id = pid →
        { p with is_active := false } ∈ (deactivate_permission db pid).permissions)
    ∧ ((r, a) ∈ db_user_permissions (deactivate_permission db pid) uid ↔
        ∃ u, db.users.find? (fun v => v.id == uid) = some u ∧
        ∃ rr ∈ db.roles, (u.id, rr.id) ∈ db.user_roles ∧ rr.is_active = true ∧
        ∃ p ∈ db.permissions, (rr.id, p.id) ∈ db.role_permissions ∧
          p.is_active = true ∧ p.id ≠ pid ∧ p.resource = r ∧ p.action = a) := by
  refine ⟨⟨rfl, rfl, rfl, rfl⟩, ?_, ?_, ?_⟩
  · intro p hp hne
    unfold deactivate_permission
    simp only [List.mem_map]
    exact ⟨p, hp, by simp [hne]⟩
  · intro p hp heq
    unfold deactivate_permission
    simp only [List.mem_map]
    exact ⟨p, hp, by simp [heq]⟩
  · rw [mem_db_user_permissions_iff]
    constructor
    · rintro ⟨u, hu, rr, hrr, hur, hact, p, hp, hrp, hpa, hres, hactn⟩
      simp only [deactivate_permission, List.mem_map] at hp
      obtain ⟨q, hq, rfl⟩ := hp
      by_cases hid : q.id = pid
      · simp [hid] at hpa
      · simp only [hid, beq_iff_eq, if_neg hid] at hrp hpa hres hactn ⊢
        exact ⟨u, hu, rr, hrr, hur, hact, q, hq, hrp, hpa, hid, hres, hactn⟩
    · rintro ⟨u, hu, rr, hrr, hur, hact, q, hq, hrp, hqa, hid, hres, hactn⟩
      refine ⟨u, hu, rr, hrr, hur, hact, q, ?_, hrp, hqa, hres, hactn⟩
      simp only [deactivate_permission, List.mem_map]
      exact ⟨q, hq, by simp [hid]⟩


/-!
### C10 — the user's own `is_active` flag
-/

/-- The directory with one user's `is_active` flag overwritten with `b`. -/
def set_user_active (users : List User) (uid : Nat) (b : Bool) : List User :=
  users.map (fun v => if v.id = uid then { v with is_active := b } else v)

/-- Overwriting one user's `is_active` flag commutes with the username
lookup, since the overwrite leaves `username` untouched. -/
theorem find?_set_user_active (uid : Nat) (b : Bool) (users : List User)
    (username : String) :
    (set_user_active users uid b).find? (fun v => v.username == username) =
      (users.find? (fun v => v.username == username)).map
        (fun v => if v.id = uid then { v with is_active := b } else v) := by
  induction users with
  | nil => rfl
  | cons head tail ih =>
    have hpres : ((if head.id = uid then { head with is_active := b } else head) :
        User).username = head.username := by
      by_cases hid : head.id = uid
      · rw [if_pos hid]
      · rw [if_neg hid]
    simp only [set_user_active, List.map_cons, List.find?_cons, hpres]
    cases hu : (head.username == username) with
    | true => rfl
    | false => exact ih

/-- C10: the user's own `is_active` flag is never consulted.  Overwriting it
changes nothing in the programmatic permission checks, the effective
permission set, the superuser check or any guard; and overwriting it on a
directory entry changes neither whether `authenticate_user` succeeds nor the
login endpoint's observable response — a deactivated user logs in and is
authorized exactly as if active. -/
theorem C10_is_active_not_consulted (b : Bool) (uid : Nat) (u : User)
    (superuser_role_name resource action : String)
    (permissions : List (String × String)) (role_names : List String)
    (verify : String → String → Bool) (users : List User)
    (username password : String) (now : Nat) :
    (user_has_permission { u with is_active := b } resource action =
      user_has_permission u resource action)
    ∧ (get_user_permissions { u with is_active := b } = get_user_permissions u)
    ∧ (is_superuser superuser_role_name { u with is_active := b } =
      is_superuser superuser_role_name u)
    ∧ (has_permission superuser_role_name resource action
        (some { u with is_active := b }) =
      has_permission superuser_role_name resource action (some u))
    ∧ (has_any_permission superuser_role_name permissions
        (some { u with is_active := b }) =
      has_any_permission superuser_role_name permissions (some u))
    ∧ (has_all_permissions superuser_role_name permissions
        (some { u with is_active := b }) =
      has_all_permissions superuser_role_name permissions (some u))
    ∧ (has_role superuser_role_name role_names (some { u with is_active := b }) =
      has_role superuser_role_name role_names (some u))
    ∧ ((authenticate_user verify (set_user_active users uid b)
        username password now).isSome =
      (authenticate_user verify users username password now).isSome)
    ∧ ((login verify (set_user_active users uid b) username password now).1 =
      (login verify users username password now).1) := by
  refine ⟨rfl, rfl, rfl, rfl, rfl, rfl, rfl, ?_, ?_⟩
  · unfold authenticate_user get_one_or_none_by_username
    rw [find?_set_user_active]
    cases hf : users.find? (fun v => v.username == username) with
    | none => rfl
    | some v =>
      simp only [Option.map_some']
      by_cases hid : v.id = uid
      · rw [if_pos hid]
        by_cases hv : verify password v.password = true
        · simp [hv]
        · simp [hv]
      · rw [if_neg hid]
        by_cases hv : verify password v.password = true
        · simp [hv]
        · simp [hv]
  · unfold login authenticate_user get_one_or_none_by_username
    rw [find?_set_user_active]
    cases hf : users.find? (fun v => v.username == username) with
    | none => rfl
    | some v =>
      simp only [Option.map_some']
      by_cases hid : v.id = uid
      · rw [if_pos hid]
        by_cases hv : verify password v.password = true
        · simp [hv]
        · simp [hv]
      · rw [if_neg hid]
        by_cases hv : verify password v.password = true
        · simp [hv]
        · simp [hv]

/-!
### Concrete instantiations
-/

/-- Witness for the amended C5 theorem at concrete inputs: an unauthenticated
call to a guard yields the 403 `Authentication required` denial, and an
authenticated call never yields that exact denial. -/
theorem C5_witness :
    has_any_permission "admin" [("users", "list")] none =
      .deny permissionDeniedStatus "Authentication required"
    ∧ has_role "admin" ["editor"] (some c6Alice) ≠
      .deny permissionDeniedStatus "Authentication required" := by
  constructor
  · exact (C5_unauthenticated_denies_403 "admin" "users" "list"
      [("users", "list")] ["editor"] c6Alice).2.1
  · exact (C5_unauthenticated_denies_403 "admin" "users" "list"
      [("users", "list")] ["editor"] c6Alice).2.2.2.2.2.2.2

/-- Witness for the amended C9 theorem at the concrete database: after
deactivating permission row 1, the untouched row 2 is still present
unchanged, and row 1 is present with only its flag cleared. -/
theorem C9_witness :
    (Permission.mk 2 "users-list-b" "users" "list" true) ∈
      (deactivate_permission c9DB 1).permissions
    ∧ (Permission.mk 1 "users-list-a" "users" "list" false) ∈
      (deactivate_permission c9DB 1).permissions := by
  constructor
  · exact (C9_deactivate_permission_spec c9DB 1 10 "users" "list").2.1
      (Permission.mk 2 "users-list-b" "users" "list" true) (by decide) (by decide)
  · exact (C9_deactivate_permission_spec c9DB 1 10 "users" "list").2.2.1
      (Permission.mk 1 "users-list-a" "users" "list" true) (by decide) (by decide)
